import Mathlib

/-!
Shallow embedding of the Get-Check resume-analysis pipeline.

The embedding covers:
* the data model of `src/types.ts` (`ResumeAnalysisResult`, `FileContent`);
* the `startAnalysis` pipeline of the application component (length gate,
  sentinel detection, error classification, retry countdown);
* the model-fallback orchestrator `analyzeResume` / `generateWithFallback`
  of the analysis service;
* the content extractor of `src/services/fileParser.ts`
  (`extractContentFromFile` dispatch, `readPdfFile`, `readImageFile`).

External effectful capabilities (the remote generative call, `JSON.parse`
of the response, the file reader) are modelled as explicit oracle
parameters; everything the repository itself computes is embedded as
executable Lean functions over `String` / `List Char`.
-/

namespace GetCheck

/-! ### Basic string helpers modelling JavaScript string primitives -/

/-- Model of JavaScript `p.isPrefixOf`-style `String.prototype.startsWith`:
`strStartsWith p s` is true when `p` is a prefix of `s`.  Defined over
character lists so it reduces in the kernel. -/
def strStartsWith (p s : String) : Bool :=
  p.toList.isPrefixOf s.toList

/-- Haystack-first substring test over character lists, modelling
JavaScript `String.prototype.includes`. -/
def hasSub : List Char → List Char → Bool
  | [], p => p.isEmpty
  | c :: rest, p => p.isPrefixOf (c :: rest) || hasSub rest p

/-- Model of JavaScript `s.includes(pat)`. -/
def strContains (s pat : String) : Bool :=
  hasSub s.toList pat.toList

/-- Model of JavaScript `String.prototype.toLowerCase` (ASCII case mapping),
defined over the character list so it reduces in the kernel. -/
def toLowerStr (s : String) : String :=
  String.mk (s.toList.map Char.toLower)

/-! ### Data model (`src/types.ts`) -/

structure SectionAnalysis where
  sectionName : String
  strengths : List String
  weaknesses : List String
  improvementSuggestions : List String
deriving DecidableEq, Repr

structure KeywordAnalysis where
  found : List String
  missing : List String
deriving DecidableEq, Repr

structure JobMatch where
  role : String
  matchPercentage : ℚ
  reason : String
deriving DecidableEq, Repr

structure AtsCompatibility where
  score : ℚ
  issues : List String
deriving DecidableEq, Repr

structure ContentQuality where
  actionVerbsUsage : String
  quantifiedAchievements : String
  clarity : String
  professionalTone : String
deriving DecidableEq, Repr

structure SpecificImprovement where
  «section» : String
  problem : String
  suggestedRewrite : String
deriving DecidableEq, Repr

structure FinalVerdict where
  impression : String
  strength : String
  priorityImprovements : List String
deriving DecidableEq, Repr

structure ResumeAnalysisResult where
  overallScore : ℚ
  overallJustification : String
  sectionAnalysis : List SectionAnalysis
  atsCompatibility : AtsCompatibility
  keywordAnalysis : KeywordAnalysis
  jobMatches : List JobMatch
  contentQuality : ContentQuality
  dos : List String
  donts : List String
  specificImprovements : List SpecificImprovement
  finalVerdict : FinalVerdict
deriving DecidableEq, Repr

/-- `FileContent` tagged union of `src/types.ts`. -/
inductive FileContent
  | text (content : String)
  | image (mimeType : String) (data : String)
deriving DecidableEq, Repr

/-! ### The `startAnalysis` pipeline (application component, try block)

`analyzeResume` is abstracted as an oracle `analyze`; a failed call is an
`Except.error` carrying the thrown error message. -/

/-- Message of the error thrown by the length gate. -/
def tooShortMessage : String :=
  "Document is too short to be a valid resume. Please upload a complete resume or CV."

/-- Message of the error thrown on sentinel detection. -/
def invalidDocumentMessage : String :=
  "The uploaded document does not appear to be a valid resume or CV. Please upload a professional resume containing sections like Education, Skills, Experience, or Projects."

/-- Sentinel condition checked by the pipeline on a successful analysis:
`analysis.overallScore === 0 && analysis.overallJustification.startsWith("INVALID_RESUME")`. -/
def isSentinel (a : ResumeAnalysisResult) : Bool :=
  a.overallScore == 0 && strStartsWith "INVALID_RESUME" a.overallJustification

/-- The analysis phase of `startAnalysis`: call the orchestrator, then apply
sentinel detection to a successful result. -/
def startAnalysisRun (analyze : FileContent → Except String ResumeAnalysisResult)
    (content : FileContent) : Except String ResumeAnalysisResult :=
  match analyze content with
  | .error e => .error e
  | .ok analysis =>
    if isSentinel analysis then .error invalidDocumentMessage
    else .ok analysis

/-- The `startAnalysis` try block after extraction succeeded: the length
gate on textual content, then the analysis phase.  The second component
records whether the `analyzeResume` oracle was invoked. -/
def startAnalysisPipeline (analyze : FileContent → Except String ResumeAnalysisResult)
    (content : FileContent) : Except String ResumeAnalysisResult × Bool :=
  match content with
  | .text c =>
    if c.length < 200 then (.error tooShortMessage, false)
    else (startAnalysisRun analyze content, true)
  | .image _ _ => (startAnalysisRun analyze content, true)

/-! ### The model-fallback orchestrator (analysis service)

The remote call `ai.models.generateContent` is an oracle
`attempt : String → Contents → Except String GenResponse` (model name and
request contents to either a response or the thrown error's message); the
generation config is the same fixed value on every attempt and is not a
parameter of the embedding.  `JSON.parse` of the response text is the
oracle `parse`. -/

/-- The remote response as consumed by the service: only its `text`
field is read, which may be absent (`none` models `undefined`). -/
structure GenResponse where
  text : Option String
deriving DecidableEq, Repr

/-- `MODELS_TO_TRY`, the ordered fallback chain of model identifiers. -/
def MODELS_TO_TRY : List String :=
  ["gemini-2.5-flash", "gemini-2.0-flash", "gemini-2.0-flash-001", "gemini-2.5-pro"]

/-- The request contents built by `analyzeResume`: a single text block for
textual input, a multipart prompt-plus-inline-image structure otherwise. -/
inductive Contents
  | textContents (s : String)
  | multipart (text : String) (mimeType : String) (data : String)
deriving DecidableEq, Repr

/-- The fixed prompt template literal of `analyzeResume`. -/
def promptText : String :=
  "\n    Analyze the following resume. \n    Validation Check: Is this a resume? If no, return overallScore: 0 and overallJustification: \"INVALID_RESUME\".\n    If yes:\n    1. Identify the candidate's primary job role based on their experience.\n    2. Suggest 2 other related roles they might fit.\n    3. Evaluate keywords found and missing for their primary role.\n    4. Provide specific actionable feedback.\n  "

/-- Contents construction of `analyzeResume` from the extracted file content. -/
def buildContents : FileContent → Contents
  | .text c => .textContents (promptText ++ "\n\nRESUME CONTENT:\n" ++ c)
  | .image m d => .multipart promptText m d

/-- Loop of `generateWithFallback`, carrying `lastError` (initially
`undefined`, modelled `none`).  The second component is the list of model
identifiers attempted, in order (the service logs one
`Attempting analysis with model: ...` line per iteration). -/
def generateWithFallbackGo (attempt : String → Except String GenResponse) :
    List String → Option String → Except String GenResponse × List String
  | [], last =>
    (match last with
     | some e => .error e
     | none => .error "All models failed to generate content.", [])
  | m :: rest, _last =>
    match attempt m with
    | .ok r => (.ok r, [m])
    | .error e =>
      let p := generateWithFallbackGo attempt rest (some e)
      (p.1, m :: p.2)

/-- `generateWithFallback`: try each configured model in order, return the
first successful response, otherwise rethrow the last attempt's error. -/
def generateWithFallback (attempt : String → Except String GenResponse)
    (models : List String) : Except String GenResponse × List String :=
  generateWithFallbackGo attempt models none

/-- `analyzeResume`: build the contents, run the fallback loop, then
require a non-empty response text and parse it.  `attempt` is the remote
call with the fixed config, `parse` is `JSON.parse` into
`ResumeAnalysisResult` (an `Except.error` is the thrown parse error's
message).  The second component is the list of models attempted. -/
def analyzeResumeModel (attempt : String → Contents → Except String GenResponse)
    (parse : String → Except String ResumeAnalysisResult)
    (input : FileContent) : Except String ResumeAnalysisResult × List String :=
  let contents := buildContents input
  let p := generateWithFallback (fun m => attempt m contents) MODELS_TO_TRY
  match p.1 with
  | .error e => (.error e, p.2)
  | .ok resp =>
    match resp.text with
    | none => (.error "Empty response from Gemini.", p.2)
    | some t =>
      if t = "" then (.error "Empty response from Gemini.", p.2)
      else (parse t, p.2)

/-! ### The error classifier (application component, catch block)

The classifier below embeds the catch block after the JSON-unwrap step:
its argument is the working message (`rawMsg` after the optional
`JSON.parse` unwrapping of a leading brace or bracket). -/

/-- A character allowed inside the `([0-9.]+)` capture group of the retry
pattern. -/
def digitOrDot (c : Char) : Bool :=
  c.isDigit || c == '.'

/-- Digit-list to number, as the integer part of `parseFloat`. -/
def natOfDigits (ds : List Char) : Nat :=
  ds.foldl (fun a c => a * 10 + c.toNat - 48) 0

/-- `Math.ceil(parseFloat(ds))` for a capture `ds` drawn from `[0-9.]+`:
the integer part is the leading digit run; a following `.` plus digit run
is the fractional part (later characters are ignored by `parseFloat`);
`none` models a `NaN` result (no leading digits and no fractional digits). -/
def parseFloatCeil (ds : List Char) : Option Nat :=
  let intPart := ds.takeWhile Char.isDigit
  let rest := ds.drop intPart.length
  match rest with
  | '.' :: rest2 =>
    let fracPart := rest2.takeWhile Char.isDigit
    if intPart.isEmpty && fracPart.isEmpty then none
    else some (natOfDigits intPart + (if fracPart.any (fun c => c ≠ '0') then 1 else 0))
  | _ => if intPart.isEmpty then none else some (natOfDigits intPart)

/-- Attempt the regex `retry in ([0-9.]+)s` at the head of the (lowered)
character list.  `none`: no match at this position; `some v`: the regex
matches here, with `v` the `Math.ceil(parseFloat _)` value (`v = none`
models a `NaN` capture). -/
def tryMatchRetry (l : List Char) : Option (Option Nat) :=
  if ("retry in ".toList).isPrefixOf l then
    let after := l.drop 9
    let ds := after.takeWhile digitOrDot
    if ds ≠ [] ∧ (after.drop ds.length).head? = some 's' then some (parseFloatCeil ds)
    else none
  else none

/-- Scan for the first position where the retry pattern matches, as the
regex engine does. -/
def scanRetry : List Char → Option (Option Nat)
  | [] => none
  | c :: rest =>
    match tryMatchRetry (c :: rest) with
    | some v => some v
    | none => scanRetry rest

/-- `rawMsg.match(/retry in ([0-9.]+)s/i)` followed by
`Math.ceil(parseFloat(match[1]))`: the case-insensitive search is the scan
over the lowered message; `none` when there is no match (or the matched
capture parses to `NaN`). -/
def extractRetrySeconds (rawMsg : String) : Option Nat :=
  match scanRetry (toLowerStr rawMsg).toList with
  | some (some n) => some n
  | _ => none

/-- The classification branch taken by the catch block (the spec's
`ClassifiedError.kind` taxonomy). -/
inductive ErrorKind
  | rateLimited | serviceUnavailable | authError | networkError | unknownError
deriving DecidableEq, Repr

/-- Outcome of the catch block: which branch fired, the user-facing
message set by it, the extracted retry delay, and the countdown armed via
`setRetryCountdown` (only in the rate-limited branch, only when positive). -/
structure ClassifiedError where
  kind : ErrorKind
  userMessage : String
  retryAfterSeconds : Option Nat
  countdownArmed : Option Nat
deriving DecidableEq, Repr

/-- The catch block of `startAnalysis` after the JSON-unwrap step:
retry-delay extraction, then the priority-ordered substring
classification.  Note the `503` and auth markers are tested against the
raw (non-lowered) message, as in the source. -/
def classifyMessage (rawMsg : String) : ClassifiedError :=
  let retrySeconds := (extractRetrySeconds rawMsg).getD 0
  let lowerMsg := toLowerStr rawMsg
  if strContains lowerMsg "quota" || strContains lowerMsg "429" ||
      strContains lowerMsg "rate limit" || strContains lowerMsg "exceeded" then
    { kind := .rateLimited,
      userMessage := "Too many requests. Please wait a moment and try again.",
      retryAfterSeconds := extractRetrySeconds rawMsg,
      countdownArmed := if retrySeconds > 0 then some retrySeconds else none }
  else if strContains rawMsg "503" || strContains lowerMsg "unavailable" ||
      strContains lowerMsg "high demand" then
    { kind := .serviceUnavailable,
      userMessage := "The AI service is currently experiencing high demand. Please try again in a moment.",
      retryAfterSeconds := extractRetrySeconds rawMsg,
      countdownArmed := none }
  else if strContains rawMsg "API Key" || strContains rawMsg "api_key" ||
      strContains rawMsg "401" then
    { kind := .authError,
      userMessage := "Authentication error. Please check the API configuration.",
      retryAfterSeconds := extractRetrySeconds rawMsg,
      countdownArmed := none }
  else if strContains lowerMsg "network" || strContains lowerMsg "fetch" ||
      strContains lowerMsg "failed to fetch" then
    { kind := .networkError,
      userMessage := "Network error. Please check your connection and try again.",
      retryAfterSeconds := extractRetrySeconds rawMsg,
      countdownArmed := none }
  else
    { kind := .unknownError,
      userMessage := String.mk (rawMsg.toList.take 500),
      retryAfterSeconds := extractRetrySeconds rawMsg,
      countdownArmed := none }

/-! ### Content extractor (`src/services/fileParser.ts`) -/

/-- The image extension set of `extractContentFromFile`. -/
def imageExtensions : List String :=
  ["jpg", "jpeg", "png", "webp", "heic", "heif"]

/-- `file.name.split('.').pop()?.toLowerCase()`: the last dot-separated
segment of the name, lowercased (the whole name when there is no dot). -/
def fileExtension (name : String) : String :=
  String.mk (((name.toList.reverse.takeWhile (fun c => c ≠ '.')).reverse).map Char.toLower)

/-- The handler `extractContentFromFile` dispatches to. -/
inductive Dispatch
  | image | txt | pdf | docx | unsupported (ext : String)
deriving DecidableEq, Repr

/-- The dispatch logic of `extractContentFromFile`: image families (by
extension set or MIME type beginning `image/`) first, then the extension
switch, `default` throwing the unsupported-file-type error. -/
def dispatchFile (name mimeType : String) : Dispatch :=
  let ext := fileExtension name
  if imageExtensions.contains ext || strStartsWith "image/" mimeType then .image
  else if ext = "txt" then .txt
  else if ext = "pdf" then .pdf
  else if ext = "docx" then .docx
  else .unsupported ext

/-- One page of a paginated document, as its extracted text tokens
(`textContent.items.map(item => item.str)`). -/
structure PdfPage where
  items : List String
deriving DecidableEq, Repr

/-- The accumulation loop of `readPdfFile`: pages are visited in order
`1..numPages` (the list order); within a page the tokens are joined with
a single space; each page's text is appended followed by a newline. -/
def readPdfFile (pages : List PdfPage) : String :=
  pages.foldl (fun fullText page => fullText ++ String.intercalate " " page.items ++ "\n") ""

/-- `parts[1]` of a JavaScript `split(',')`: the segment between the first
and second comma; `none` when the string has no comma (`undefined`). -/
def part1AfterComma (l : List Char) : Option (List Char) :=
  match l.dropWhile (fun c => c ≠ ',') with
  | [] => none
  | _ :: rest => some (rest.takeWhile (fun c => c ≠ ','))

/-- `parts[0].match(/:(.*?);/)`: the capture between the first `:` and the
first `;` after it, `none` when the regex does not match. -/
def mimeFromDataUri (l : List Char) : Option (List Char) :=
  match l.dropWhile (fun c => c ≠ ':') with
  | [] => none
  | _ :: rest =>
    if rest.any (fun c => c = ';') then some (rest.takeWhile (fun c => c ≠ ';'))
    else none

/-- `readImageFile` on the `FileReader` result string (`readAsDataURL`
output) and the file's declared MIME type.  An empty result rejects; the
payload is the segment after the first comma (its absence, `undefined` in
the source, is modelled as the empty payload — the theorems below do not
rely on that case); the MIME type is the declared one when non-empty,
else the data-URI capture, else `image/jpeg`. -/
def readImageFile (declaredType result : String) : Except String FileContent :=
  if result = "" then .error "Failed to read image file"
  else
    let l := result.toList
    let p0 := l.takeWhile (fun c => c ≠ ',')
    let base64Data := String.mk ((part1AfterComma l).getD [])
    let mime1 :=
      if declaredType = "" ∧ p0 ≠ [] then
        match mimeFromDataUri p0 with
        | some m => String.mk m
        | none => declaredType
      else declaredType
    .ok (.image (if mime1 = "" then "image/jpeg" else mime1) base64Data)

/-! ### Retry countdown (application component)

The countdown effect re-runs whenever `retryCountdown` changes: a `null`
value does nothing; a value `≤ 0` resets to `null` and closes the error
modal; a positive value schedules a one-second tick that decrements.
`countdownEffectStep` is one transition of that machine (a tick on a
positive count, the immediate reset on zero); `dismissErrorModal` is the
modal's close action (backdrop or OK button), which only sets
`showErrorModal` to `false`. -/

structure CountdownUI where
  retryCountdown : Option Nat
  showErrorModal : Bool
deriving DecidableEq, Repr

/-- One transition of the countdown machine. -/
def countdownEffectStep (s : CountdownUI) : CountdownUI :=
  match s.retryCountdown with
  | none => s
  | some 0 => { retryCountdown := none, showErrorModal := false }
  | some (n + 1) => { s with retryCountdown := some n }

/-- The error modal's dismissal handler: `setShowErrorModal(false)` only. -/
def dismissErrorModal (s : CountdownUI) : CountdownUI :=
  { s with showErrorModal := false }

/-! ### Auxiliary concrete values and specification-side definitions -/

deriving instance DecidableEq for Except

/-- Specification-side page concatenation, written from the spec's words:
per-page texts in page order, one newline after each page. -/
def pagesJoinedSpec : List PdfPage → String
  | [] => ""
  | p :: rest => String.intercalate " " p.items ++ "\n" ++ pagesJoinedSpec rest

/-- A schema-complete analysis result satisfying the sentinel condition. -/
def sampleSentinelResult : ResumeAnalysisResult :=
  { overallScore := 0
    overallJustification := "INVALID_RESUME: the document is not a resume"
    sectionAnalysis := []
    atsCompatibility := { score := 0, issues := [] }
    keywordAnalysis := { found := [], missing := [] }
    jobMatches := []
    contentQuality :=
      { actionVerbsUsage := "N/A", quantifiedAchievements := "N/A",
        clarity := "N/A", professionalTone := "N/A" }
    dos := []
    donts := []
    specificImprovements := []
    finalVerdict := { impression := "N/A", strength := "Weak", priorityImprovements := [] } }

/-- A schema-complete analysis result that does not satisfy the sentinel. -/
def sampleValidResult : ResumeAnalysisResult :=
  { overallScore := 7
    overallJustification := "Solid resume with quantified achievements"
    sectionAnalysis := []
    atsCompatibility := { score := 8, issues := [] }
    keywordAnalysis := { found := ["python"], missing := ["docker"] }
    jobMatches := []
    contentQuality :=
      { actionVerbsUsage := "Good", quantifiedAchievements := "Good",
        clarity := "Good", professionalTone := "Good" }
    dos := []
    donts := []
    specificImprovements := []
    finalVerdict := { impression := "Good", strength := "Average", priorityImprovements := [] } }

/-- Oracle for which the first configured model answers with an unparseable
payload while every other model would answer with a parseable one. -/
def unparseableFirstAttempt : String → Contents → Except String GenResponse :=
  fun m _ =>
    if m = "gemini-2.5-flash" then .ok ⟨some "not json"⟩ else .ok ⟨some "good json"⟩

/-- Parse oracle under which only the payload of the later models parses. -/
def parseGoodOnly : String → Except String ResumeAnalysisResult :=
  fun t => if t = "good json" then .ok sampleValidResult else .error "Unexpected token"

/-! ### General list helper lemmas -/

/-- Whole-first-block `takeWhile` over an append. -/
theorem takeWhile_append_all {α} (p : α → Bool) :
    ∀ (l₁ l₂ : List α), l₁.all p = true →
      (l₁ ++ l₂).takeWhile p = l₁ ++ l₂.takeWhile p := by
  intro l₁
  induction l₁ with
  | nil => intro l₂ _; simp
  | cons a t ih =>
    intro l₂ h
    simp only [List.all_cons, Bool.and_eq_true] at h
    simp [List.takeWhile_cons, h.1, ih l₂ h.2]

/-- `takeWhile` keeps a list all of whose elements satisfy the predicate. -/
theorem takeWhile_of_all {α} (p : α → Bool) (l : List α) (h : l.all p = true) :
    l.takeWhile p = l := by
  have := takeWhile_append_all p l [] h
  simpa using this

/-- Whole-first-block `dropWhile` over an append. -/
theorem dropWhile_append_all {α} (p : α → Bool) :
    ∀ (l₁ l₂ : List α), l₁.all p = true →
      (l₁ ++ l₂).dropWhile p = l₂.dropWhile p := by
  intro l₁
  induction l₁ with
  | nil => intro l₂ _; simp
  | cons a t ih =>
    intro l₂ h
    simp only [List.all_cons, Bool.and_eq_true] at h
    simp [List.dropWhile_cons, h.1, ih l₂ h.2]

/-- A list is a Boolean prefix of itself extended by anything. -/
theorem isPrefixOf_append_self (p t : List Char) : p.isPrefixOf (p ++ t) = true := by
  induction p with
  | nil => simp [List.isPrefixOf]
  | cons a as ih => simp [List.isPrefixOf, ih]

/-! ### Helper lemmas about the embedded functions -/

/-- The foldl of `readPdfFile` relative to the spec-side concatenation. -/
theorem readPdfFile_go (pages : List PdfPage) :
    ∀ acc : String,
      pages.foldl
        (fun fullText page => fullText ++ String.intercalate " " page.items ++ "\n") acc =
        acc ++ pagesJoinedSpec pages := by
  induction pages with
  | nil => intro acc; simp [pagesJoinedSpec, String.append_empty]
  | cons p rest ih =>
    intro acc
    simp only [List.foldl_cons, pagesJoinedSpec, ih]
    rw [String.append_assoc, String.append_assoc, String.append_assoc]

/-- A dotless name is its own (lowercased) extension. -/
theorem dotless_fileExtension (name : String)
    (h : name.toList.all (fun c => c ≠ '.') = true) :
    fileExtension name = String.mk (name.toList.map Char.toLower) := by
  unfold fileExtension
  congr 1
  rw [takeWhile_of_all _ _ (by simpa using h), List.reverse_reverse]

/-- One failing attempt prepends its model to the trace of the rest. -/
theorem generateWithFallbackGo_cons_error
    (attempt : String → Except String GenResponse) (a : String) (rest : List String)
    (last : Option String) (e : String) (ha : attempt a = .error e) :
    generateWithFallbackGo attempt (a :: rest) last =
      ((generateWithFallbackGo attempt rest (some e)).1,
        a :: (generateWithFallbackGo attempt rest (some e)).2) := by
  simp [generateWithFallbackGo, ha]

/-- The fallback loop stops at the first successful model. -/
theorem generateWithFallbackGo_success
    (attempt : String → Except String GenResponse) (errOf : String → String)
    (m : String) (ms2 : List String) (r : GenResponse) (hok : attempt m = .ok r) :
    ∀ (ms1 : List String), (∀ x ∈ ms1, attempt x = .error (errOf x)) →
      ∀ last : Option String,
        generateWithFallbackGo attempt (ms1 ++ m :: ms2) last = (.ok r, ms1 ++ [m]) := by
  intro ms1
  induction ms1 with
  | nil =>
    intro _ last
    simp [generateWithFallbackGo, hok]
  | cons a t ih =>
    intro hall last
    have ha := hall a (List.mem_cons_self a t)
    simp only [List.cons_append, generateWithFallbackGo, ha]
    simp [ih (fun x hx => hall x (List.mem_cons_of_mem a hx)) (some (errOf a))]

/-- When every model fails, the loop rethrows the last model's error. -/
theorem generateWithFallbackGo_allFail
    (attempt : String → Except String GenResponse) (errOf : String → String) :
    ∀ (ms : List String) (hne : ms ≠ []) (last : Option String),
      (∀ x ∈ ms, attempt x = .error (errOf x)) →
      (generateWithFallbackGo attempt ms last).1 = .error (errOf (ms.getLast hne)) := by
  intro ms
  induction ms with
  | nil => intro hne; exact absurd rfl hne
  | cons a t ih =>
    intro hne last hall
    have ha := hall a (List.mem_cons_self a t)
    cases t with
    | nil => simp [generateWithFallbackGo, ha, List.getLast]
    | cons b t2 =>
      have h2 := ih (by simp) (some (errOf a)) (fun x hx => hall x (List.mem_cons_of_mem a hx))
      rw [generateWithFallbackGo_cons_error attempt a (b :: t2) last (errOf a) ha]
      rw [show ((a :: b :: t2).getLast hne) = ((b :: t2).getLast (by simp)) from
        List.getLast_cons _]
      exact h2

/-- `takeWhile` up to the first comma of a comma-split point. -/
theorem takeWhile_comma_split (P D : List Char) (hp : P.all (fun c => c ≠ ',') = true) :
    (P ++ ',' :: D).takeWhile (fun c => c ≠ ',') = P := by
  rw [takeWhile_append_all _ _ _ hp]
  simp [List.takeWhile_cons]

/-- The segment between the first and second comma. -/
theorem part1_comma_split (P D : List Char) (hp : P.all (fun c => c ≠ ',') = true) :
    part1AfterComma (P ++ ',' :: D) = some (D.takeWhile (fun c => c ≠ ',')) := by
  unfold part1AfterComma
  rw [dropWhile_append_all _ _ _ hp]
  simp [List.dropWhile_cons]

/-- The data-URI regex capture on a well-formed image prefix. -/
theorem mimeFromDataUri_split (mimeL tail : List Char)
    (hm : mimeL.all (fun c => c ≠ ';') = true) :
    mimeFromDataUri ("data".toList ++ ':' :: (mimeL ++ ';' :: tail)) = some mimeL := by
  have h1 : ("data".toList ++ ':' :: (mimeL ++ ';' :: tail)).dropWhile (fun c => c ≠ ':') =
      ':' :: (mimeL ++ ';' :: tail) := by
    rw [dropWhile_append_all _ _ _ (by decide)]
    simp [List.dropWhile_cons]
  unfold mimeFromDataUri
  rw [h1]
  have h2 : (mimeL ++ ';' :: tail).any (fun c => c = ';') = true := by
    simp [List.any_append]
  simp only [h2, if_pos]
  rw [takeWhile_append_all _ _ _ hm]
  simp [List.takeWhile_cons]

/-- The retry-pattern scan skips positions where the pattern cannot match. -/
theorem scanRetry_append (p rest : List Char)
    (h : ∀ i, i < p.length → tryMatchRetry ((p ++ rest).drop i) = none) :
    scanRetry (p ++ rest) = scanRetry rest := by
  induction p with
  | nil => simp
  | cons c t ih =>
    have h0 := h 0 (by simp)
    rw [List.drop_zero, List.cons_append] at h0
    rw [List.cons_append]
    simp only [scanRetry, h0]
    exact ih (fun i hi => by
      have hstep := h (i + 1) (by simpa using Nat.succ_lt_succ hi)
      rw [List.cons_append, List.drop_succ_cons] at hstep
      exact hstep)

/-- At a position spelling `retry in <ds>s`, the pattern matches and
captures `ds`. -/
theorem tryMatchRetry_head (ds post : List Char)
    (hne : ds ≠ []) (hall : ds.all digitOrDot = true) :
    tryMatchRetry ("retry in ".toList ++ (ds ++ 's' :: post)) = some (parseFloatCeil ds) := by
  have hpre : ("retry in ".toList).isPrefixOf ("retry in ".toList ++ (ds ++ 's' :: post)) = true :=
    isPrefixOf_append_self _ _
  have hdrop : ("retry in ".toList ++ (ds ++ 's' :: post)).drop 9 = ds ++ 's' :: post := by
    have h9 : ("retry in ".toList : List Char).length = 9 := by decide
    conv_lhs => rw [← h9]
    exact List.drop_left _ _
  have hsf : digitOrDot 's' = false := by decide
  have hds : (ds ++ 's' :: post).takeWhile digitOrDot = ds := by
    rw [takeWhile_append_all _ _ _ hall]
    simp [List.takeWhile_cons, hsf]
  have hdroplen : (ds ++ 's' :: post).drop ds.length = 's' :: post := List.drop_left _ _
  unfold tryMatchRetry
  simp [hpre, hdrop, hds, hdroplen, hne]

/-- The scan hits the pattern standing at the head of the list. -/
theorem scanRetry_at_head (ds post : List Char)
    (hne : ds ≠ []) (hall : ds.all digitOrDot = true) :
    scanRetry ("retry in ".toList ++ (ds ++ 's' :: post)) = some (parseFloatCeil ds) := by
  have hcons : ("retry in ".toList : List Char) = 'r' :: "etry in ".toList := by decide
  rw [hcons, List.cons_append]
  simp only [scanRetry]
  rw [← List.cons_append, ← hcons, tryMatchRetry_head ds post hne hall]

/-- Digits are digit-or-dot characters. -/
theorem all_digit_digitOrDot (l : List Char) (h : l.all Char.isDigit = true) :
    l.all digitOrDot = true := by
  rw [List.all_eq_true] at h ⊢
  intro x hx
  have := h x hx
  simp_all [digitOrDot]

/-- Ceiling of a captured decimal `d1.d2`. -/
theorem parseFloatCeil_decimal (d1 d2 : List Char) (h1 : d1 ≠ [])
    (hd1 : d1.all Char.isDigit = true) (hd2 : d2.all Char.isDigit = true) :
    parseFloatCeil (d1 ++ '.' :: d2) =
      some (natOfDigits d1 + if d2.any (fun c => c ≠ '0') then 1 else 0) := by
  have hdotf : Char.isDigit '.' = false := by decide
  have ht : (d1 ++ '.' :: d2).takeWhile Char.isDigit = d1 := by
    rw [takeWhile_append_all _ _ _ hd1]
    simp [List.takeWhile_cons, hdotf]
  have hdrop : (d1 ++ '.' :: d2).drop d1.length = '.' :: d2 := List.drop_left _ _
  unfold parseFloatCeil
  simp only [ht, hdrop]
  rw [takeWhile_of_all _ _ hd2]
  have hie : d1.isEmpty = false := by
    cases d1 with
    | nil => exact absurd rfl h1
    | cons a t => rfl
  simp [hie]

/-- Ceiling of a captured integer `d1`. -/
theorem parseFloatCeil_int (d1 : List Char) (h1 : d1 ≠ [])
    (hd1 : d1.all Char.isDigit = true) :
    parseFloatCeil d1 = some (natOfDigits d1) := by
  unfold parseFloatCeil
  rw [takeWhile_of_all _ _ hd1]
  have hie : d1.isEmpty = false := by
    cases d1 with
    | nil => exact absurd rfl h1
    | cons a t => rfl
  rcases d1 with _ | ⟨a, t⟩
  · exact absurd rfl h1
  · simp only [List.drop_length]
    simp [hie]

/-- Every classification branch exposes the same extracted retry delay. -/
theorem classifyMessage_retryAfterSeconds (msg : String) :
    (classifyMessage msg).retryAfterSeconds = extractRetrySeconds msg := by
  unfold classifyMessage
  simp only []
  split_ifs <;> rfl

/-! ### Claim theorems -/

/-- Claim C1: for every extracted text `FileContent` whose content is
shorter than 200 characters, the pipeline fails with the too-short
validation error and the `analyzeResume` oracle is never invoked (no
remote call happens), whatever that oracle would answer; an image
`FileContent` always reaches the analysis phase. -/
theorem startAnalysis_tooShort_gate
    (analyze : FileContent → Except String ResumeAnalysisResult) (s : String)
    (h : s.length < 200) :
    startAnalysisPipeline analyze (FileContent.text s) = (.error tooShortMessage, false) ∧
    ∀ mime data : String,
      (startAnalysisPipeline analyze (FileContent.image mime data)).2 = true := by
  constructor
  · simp [startAnalysisPipeline, h]
  · intro mime data; rfl

/-- Claim C1 witness: evaluation of the gate at the two-character text
`hi` and at a concrete image content. -/
theorem startAnalysis_tooShort_gate_witness :
    ("hi" : String).length < 200 ∧
    startAnalysisPipeline (fun _ => Except.error "remote down") (FileContent.text "hi") =
      (.error tooShortMessage, false) ∧
    (startAnalysisPipeline (fun _ => Except.error "remote down")
      (FileContent.image "image/png" "QUJD")).2 = true := by
  refine ⟨by decide, ?_, ?_⟩
  · exact (startAnalysis_tooShort_gate (fun _ => Except.error "remote down") "hi" (by decide)).1
  · exact (startAnalysis_tooShort_gate (fun _ => Except.error "remote down") "hi"
      (by decide)).2 "image/png" "QUJD"

/-- Claim C2: when the analysis oracle succeeds with a result satisfying
the sentinel condition (overall score `0` and justification beginning
`INVALID_RESUME`), the pipeline fails with the invalid-document error and
never surfaces the result as a success; a non-sentinel result is returned
unchanged. -/
theorem startAnalysis_sentinel
    (analyze : FileContent → Except String ResumeAnalysisResult)
    (content : FileContent) (a : ResumeAnalysisResult)
    (hgate : ∀ s : String, content = FileContent.text s → ¬ s.length < 200)
    (hcall : analyze content = Except.ok a) :
    ((a.overallScore = 0 ∧ strStartsWith "INVALID_RESUME" a.overallJustification = true) →
      startAnalysisPipeline analyze content = (.error invalidDocumentMessage, true)) ∧
    (¬(a.overallScore = 0 ∧ strStartsWith "INVALID_RESUME" a.overallJustification = true) →
      startAnalysisPipeline analyze content = (.ok a, true)) := by
  have hpipe : startAnalysisPipeline analyze content = (startAnalysisRun analyze content, true) := by
    cases content with
    | text s =>
      have hge := hgate s rfl
      simp [startAnalysisPipeline, hge]
    | image m d => rfl
  have hrun : startAnalysisRun analyze content =
      (if isSentinel a then .error invalidDocumentMessage else .ok a) := by
    simp [startAnalysisRun, hcall]
  have hsent : isSentinel a = true ↔
      (a.overallScore = 0 ∧ strStartsWith "INVALID_RESUME" a.overallJustification = true) := by
    simp [isSentinel, Bool.and_eq_true, beq_iff_eq]
  constructor
  · intro hs
    rw [hpipe, hrun, if_pos (hsent.mpr hs)]
  · intro hs
    rw [hpipe, hrun, if_neg (fun hx => hs (hsent.mp hx))]

/-- Claim C2 witness: a concrete sentinel-shaped result on an image
content makes the pipeline fail with the invalid-document error. -/
theorem startAnalysis_sentinel_witness :
    (fun _ => Except.ok sampleSentinelResult :
        FileContent → Except String ResumeAnalysisResult) (FileContent.image "image/png" "QUJD") =
      Except.ok sampleSentinelResult ∧
    startAnalysisPipeline (fun _ => Except.ok sampleSentinelResult)
      (FileContent.image "image/png" "QUJD") = (.error invalidDocumentMessage, true) := by
  refine ⟨rfl, ?_⟩
  exact (startAnalysis_sentinel (fun _ => Except.ok sampleSentinelResult)
    (FileContent.image "image/png" "QUJD") sampleSentinelResult
    (fun s hx => nomatch hx) rfl).1 ⟨rfl, by decide⟩

/-- Claim C3 counterexample: with the first configured model answering an
unparseable payload (and the second model's payload parseable), the
orchestrator aborts the whole analysis with the parse error after
attempting only the first model — it does not advance to the next model
identifier. -/
theorem analyzeResume_parse_counterexample :
    analyzeResumeModel unparseableFirstAttempt parseGoodOnly (FileContent.text "resume text") =
      (.error "Unexpected token", ["gemini-2.5-flash"]) ∧
    unparseableFirstAttempt "gemini-2.0-flash" (buildContents (FileContent.text "resume text")) =
      .ok ⟨some "good json"⟩ ∧
    parseGoodOnly "good json" = .ok sampleValidResult := by
  refine ⟨by decide, by decide, by decide⟩

/-- Claim C3 (amended): a model attempt whose response text fails to parse
(or is empty) makes the whole analysis fail with that parse error; the
fallback loop has already stopped at that model, and no further model
identifier is attempted. -/
theorem analyzeResume_parse_failure_aborts
    (attempt : String → Contents → Except String GenResponse)
    (parse : String → Except String ResumeAnalysisResult)
    (input : FileContent) (resp : GenResponse) (t e : String) (tried : List String)
    (hgen : generateWithFallback (fun m => attempt m (buildContents input)) MODELS_TO_TRY =
      (.ok resp, tried))
    (htext : resp.text = some t) (hne : ¬ t = "") (hparse : parse t = .error e) :
    analyzeResumeModel attempt parse input = (.error e, tried) := by
  unfold analyzeResumeModel
  simp only [hgen, htext]
  rw [if_neg hne, hparse]

/-- Claim C3 witness: evaluation of the amended behaviour at the concrete
unparseable-first-model oracle. -/
theorem analyzeResume_parse_failure_aborts_witness :
    analyzeResumeModel unparseableFirstAttempt parseGoodOnly (FileContent.text "resume text") =
      (.error "Unexpected token", ["gemini-2.5-flash"]) :=
  analyzeResume_parse_failure_aborts unparseableFirstAttempt parseGoodOnly
    (FileContent.text "resume text") ⟨some "not json"⟩ "not json" "Unexpected token"
    ["gemini-2.5-flash"] (by decide) rfl (by decide) (by decide)

/-- Claim C4: the fallback loop tries the configured models strictly in
list order and stops at the first success (attempting exactly the failing
ones before it plus that model); when every configured model fails, the
raised error's message is the last attempt's raw error, not any earlier
attempt's. -/
theorem generateWithFallback_spec
    (attempt : String → Except String GenResponse) (errOf : String → String) :
    (∀ (ms1 : List String) (m : String) (ms2 : List String) (r : GenResponse),
        (∀ x ∈ ms1, attempt x = .error (errOf x)) → attempt m = .ok r →
        generateWithFallback attempt (ms1 ++ m :: ms2) = (.ok r, ms1 ++ [m])) ∧
    (∀ (ms : List String) (hne : ms ≠ []),
        (∀ x ∈ ms, attempt x = .error (errOf x)) →
        (generateWithFallback attempt ms).1 = .error (errOf (ms.getLast hne))) := by
  constructor
  · intro ms1 m ms2 r hall hok
    exact generateWithFallbackGo_success attempt errOf m ms2 r hok ms1 hall none
  · intro ms hne hall
    exact generateWithFallbackGo_allFail attempt errOf ms hne none hall

/-- Claim C4 witness: on the actual four-model chain with every model
failing, the raised error is the fourth (last) model's. -/
theorem generateWithFallback_spec_witness :
    (generateWithFallback (fun m => Except.error ("fail " ++ m)) MODELS_TO_TRY).1 =
      Except.error "fail gemini-2.5-pro" := by
  have h := (generateWithFallback_spec (fun m => Except.error ("fail " ++ m))
    (fun m => "fail " ++ m)).2 MODELS_TO_TRY (by decide) (fun x _ => rfl)
  simpa using h

/-- Claim C5: a working message containing both `quota` and `503`
(case-insensitively) classifies as rate-limited with the fixed
too-many-requests user message, not as service-unavailable: the quota
family of markers is tested first and the first match wins. -/
theorem classify_quota_503
    (msg : String)
    (hq : strContains (toLowerStr msg) "quota" = true)
    (_h503 : strContains (toLowerStr msg) "503" = true) :
    (classifyMessage msg).kind = ErrorKind.rateLimited ∧
    (classifyMessage msg).userMessage = "Too many requests. Please wait a moment and try again." ∧
    (classifyMessage msg).kind ≠ ErrorKind.serviceUnavailable := by
  have hall : classifyMessage msg =
      { kind := .rateLimited,
        userMessage := "Too many requests. Please wait a moment and try again.",
        retryAfterSeconds := extractRetrySeconds msg,
        countdownArmed :=
          if (extractRetrySeconds msg).getD 0 > 0 then some ((extractRetrySeconds msg).getD 0)
          else none } := by
    unfold classifyMessage
    simp only [hq, Bool.true_or, if_pos]
  refine ⟨by rw [hall], by rw [hall], by rw [hall]; simp⟩

/-- Claim C5 witness: evaluation at a message carrying both markers. -/
theorem classify_quota_503_witness :
    strContains (toLowerStr "Quota exceeded; upstream returned 503") "quota" = true ∧
    strContains (toLowerStr "Quota exceeded; upstream returned 503") "503" = true ∧
    (classifyMessage "Quota exceeded; upstream returned 503").kind = ErrorKind.rateLimited ∧
    (classifyMessage "Quota exceeded; upstream returned 503").kind ≠
      ErrorKind.serviceUnavailable := by
  refine ⟨by decide, by decide, ?_, ?_⟩
  · exact (classify_quota_503 "Quota exceeded; upstream returned 503" (by decide) (by decide)).1
  · exact (classify_quota_503 "Quota exceeded; upstream returned 503" (by decide) (by decide)).2.2

/-- Claim C6: a raw message whose lowered form carries `retry in <ds>s`
at its first pattern position, with `<ds>` an integer or decimal digit
capture, classifies with `retryAfterSeconds` equal to the ceiling of that
number (integer part plus one exactly when the fractional digits are
non-zero). -/
theorem classify_retry_ceiling
    (msg : String) (pre post d1 ds : List Char) (d2? : Option (List Char))
    (hds : ds = d2?.elim d1 (fun d2 => d1 ++ '.' :: d2))
    (hd1ne : d1 ≠ []) (hd1 : d1.all Char.isDigit = true)
    (hd2 : ∀ d2, d2? = some d2 → d2.all Char.isDigit = true)
    (hmsg : (toLowerStr msg).toList = pre ++ ("retry in ".toList ++ (ds ++ 's' :: post)))
    (hclean : ∀ i, i < pre.length →
      tryMatchRetry ((pre ++ ("retry in ".toList ++ (ds ++ 's' :: post))).drop i) = none) :
    (classifyMessage msg).retryAfterSeconds =
      some (natOfDigits d1 +
        d2?.elim 0 (fun d2 => if d2.any (fun c => c ≠ '0') then 1 else 0)) := by
  rw [classifyMessage_retryAfterSeconds msg]
  have hdsne : ds ≠ [] := by
    cases d2? with
    | none => simpa [hds] using hd1ne
    | some d2 => simp [hds]
  have hdsall : ds.all digitOrDot = true := by
    cases d2? with
    | none =>
      simp only [hds, Option.elim_none]
      exact all_digit_digitOrDot d1 hd1
    | some d2 =>
      simp only [hds, Option.elim_some]
      simp only [List.all_append, List.all_cons, Bool.and_eq_true]
      refine ⟨all_digit_digitOrDot d1 hd1, by decide, all_digit_digitOrDot d2 (hd2 d2 rfl)⟩
  have hceil : parseFloatCeil ds =
      some (natOfDigits d1 +
        d2?.elim 0 (fun d2 => if d2.any (fun c => c ≠ '0') then 1 else 0)) := by
    cases d2? with
    | none =>
      simp only [hds, Option.elim_none]
      simpa using parseFloatCeil_int d1 hd1ne hd1
    | some d2 =>
      simp only [hds, Option.elim_some]
      simpa using parseFloatCeil_decimal d1 d2 hd1ne hd1 (hd2 d2 rfl)
  unfold extractRetrySeconds
  rw [hmsg, scanRetry_append pre _ hclean, scanRetry_at_head ds post hdsne hdsall, hceil]

/-- Claim C6 witness: a message containing `retry in 18.6s` classifies
with `retryAfterSeconds = 19`. -/
theorem classify_retry_ceiling_witness :
    (classifyMessage "Please retry in 18.6s.").retryAfterSeconds = some 19 := by
  have h := classify_retry_ceiling "Please retry in 18.6s." "please ".toList ".".toList
    "18".toList "18.6".toList (some "6".toList) (by decide) (by decide) (by decide)
    (fun d2 hd2 => by cases hd2; decide) (by decide) (by decide)
  simpa using h

/-- Claim C7: paginated extraction visits the pages in order starting at
page 1, joins each page's text tokens with a single space, and appends
one newline after each page's text; in particular a 3-page document with
page texts `A`, `B`, `C` yields exactly the string `A`, newline, `B`,
newline, `C`, newline. -/
theorem readPdfFile_spec :
    (∀ pages : List PdfPage, readPdfFile pages = pagesJoinedSpec pages) ∧
    readPdfFile [⟨["A"]⟩, ⟨["B"]⟩, ⟨["C"]⟩] = "A\nB\nC\n" := by
  constructor
  · intro pages
    have h := readPdfFile_go pages ""
    rw [readPdfFile, h, String.empty_append]
  · rfl

/-- Claim C8: on a well-formed data URI, image extraction returns the
base64 segment after the prefix as the payload, with MIME type the file's
declared type when non-empty, otherwise the type captured from the
data-URI prefix, otherwise the default `image/jpeg`. -/
theorem readImageFile_spec
    (declared mime data : String)
    (hm1 : mime.toList.all (fun c => c ≠ ',') = true)
    (hm2 : mime.toList.all (fun c => c ≠ ';') = true)
    (hdata : data.toList.all (fun c => c ≠ ',') = true) :
    readImageFile declared ("data:" ++ mime ++ ";base64," ++ data) =
      .ok (.image
        (if declared ≠ "" then declared else if mime ≠ "" then mime else "image/jpeg")
        data) := by
  have hP : ("data:" ++ mime ++ ";base64," ++ data).toList =
      ("data".toList ++ ':' :: (mime.toList ++ ';' :: "base64".toList)) ++ ',' :: data.toList := by
    have h0 : ("data:" ++ mime ++ ";base64," ++ data).toList =
        ("data:".toList ++ mime.toList ++ ";base64,".toList ++ data.toList : List Char) := rfl
    have h1 : ("data:" : String).toList = "data".toList ++ [':'] := by decide
    have h2 : (";base64," : String).toList = (';' :: "base64".toList) ++ [','] := by decide
    rw [h0, h1, h2]
    simp [List.append_assoc]
  have hpall : ("data".toList ++ ':' :: (mime.toList ++ ';' :: "base64".toList)).all
      (fun c => c ≠ ',') = true := by
    simp only [List.all_append, List.all_cons, Bool.and_eq_true]
    refine ⟨by decide, by decide, ?_, by decide, by decide⟩
    exact hm1
  have hne : ("data:" ++ mime ++ ";base64," ++ data) ≠ "" := by
    intro h
    rw [h] at hP
    exact absurd hP (by simp)
  unfold readImageFile
  rw [if_neg hne]
  simp only [hP]
  rw [takeWhile_comma_split _ _ hpall, part1_comma_split _ _ hpall,
    mimeFromDataUri_split _ _ hm2, takeWhile_of_all _ _ hdata]
  by_cases hd : declared = ""
  · simp only [hd, ne_eq, Option.getD_some]
    by_cases hm : mime = ""
    · simp [hm]
    · have hmt : String.mk mime.toList = mime := rfl
      have hdn : String.mk data.toList = data := rfl
      simp [hm, hmt, hdn]
  · have hdn : String.mk data.toList = data := rfl
    simp [hd, hdn]

/-- Claim C8 witness: an image with no declared type and prefix
`data:image/png;base64,` extracts with MIME type `image/png`. -/
theorem readImageFile_spec_witness :
    ("image/png" : String).toList.all (fun c => c ≠ ',') = true ∧
    ("image/png" : String).toList.all (fun c => c ≠ ';') = true ∧
    ("QUJD" : String).toList.all (fun c => c ≠ ',') = true ∧
    readImageFile "" ("data:" ++ "image/png" ++ ";base64," ++ "QUJD") =
      .ok (.image "image/png" "QUJD") := by
  refine ⟨by decide, by decide, by decide, ?_⟩
  have h := readImageFile_spec "" "image/png" "QUJD" (by decide) (by decide) (by decide)
  simpa using h

/-- Claim C9 counterexample: dismissing the error modal while the
countdown stands at 2 leaves the countdown armed at 2 — the state does
not become Idle, contradicting the claim that an external dismissal
forces Idle immediately. -/
theorem countdown_dismiss_counterexample :
    dismissErrorModal ⟨some 2, true⟩ = ⟨some 2, false⟩ ∧
    (dismissErrorModal ⟨some 2, true⟩).retryCountdown ≠ none := by decide

/-- Claim C9 (amended): the countdown armed at `n > 0` decrements by one
per tick (3 passes through 2, 1, 0) and on reaching 0 transitions to the
Idle (`none`) state while auto-dismissing the error modal; an external
dismissal hides the error modal but leaves the countdown value unchanged
(the countdown keeps running to completion); the Idle state is stable. -/
theorem countdown_transitions :
    (∀ (n : Nat) (m : Bool), countdownEffectStep ⟨some (n + 1), m⟩ = ⟨some n, m⟩) ∧
    (∀ m : Bool, countdownEffectStep ⟨some 0, m⟩ = ⟨none, false⟩) ∧
    (∀ m : Bool, countdownEffectStep ⟨none, m⟩ = ⟨none, m⟩) ∧
    (countdownEffectStep ⟨some 3, true⟩ = ⟨some 2, true⟩ ∧
     countdownEffectStep ⟨some 2, true⟩ = ⟨some 1, true⟩ ∧
     countdownEffectStep ⟨some 1, true⟩ = ⟨some 0, true⟩ ∧
     countdownEffectStep ⟨some 0, true⟩ = ⟨none, false⟩) ∧
    (∀ s : CountdownUI,
      (dismissErrorModal s).retryCountdown = s.retryCountdown ∧
      (dismissErrorModal s).showErrorModal = false) :=
  ⟨fun _ _ => rfl, fun _ => rfl, fun _ => rfl, ⟨rfl, rfl, rfl, rfl⟩, fun _ => ⟨rfl, rfl⟩⟩

/-- Claim C10 counterexample: the dot-less file name `txt` dispatches to
the plain-text handler, not to the unsupported-type rejection, although
`txt` is not in the image extension set and the MIME type is empty —
contradicting the claim that such names are rejected unless they are
image-like. -/
theorem dispatch_dotless_txt_counterexample :
    dispatchFile "txt" "" = Dispatch.txt ∧
    dispatchFile "txt" "" ≠ Dispatch.unsupported "txt" ∧
    imageExtensions.contains "txt" = false ∧
    strStartsWith "image/" "" = false := by decide

/-- Claim C10 (amended): the extension is the lowercased last
dot-separated segment (so `RESUME.PDF` dispatches to the PDF handler);
for a dot-less name the whole lowercased name is the extension, and such
a file is rejected as unsupported exactly when the name is neither in the
image extension set, nor accompanied by an `image/` MIME type, nor itself
one of `txt`, `pdf`, `docx` (which dispatch to the matching handler). -/
theorem dispatchFile_extension_spec :
    (∀ (pre post : List Char), post.all (fun c => c ≠ '.') = true →
        fileExtension (String.mk (pre ++ '.' :: post)) = String.mk (post.map Char.toLower)) ∧
    dispatchFile "RESUME.PDF" "application/pdf" = Dispatch.pdf ∧
    (∀ name mime : String, name.toList.all (fun c => c ≠ '.') = true →
        fileExtension name = String.mk (name.toList.map Char.toLower) ∧
        (dispatchFile name mime = Dispatch.unsupported (fileExtension name) ↔
          ¬(imageExtensions.contains (fileExtension name) = true ∨
              strStartsWith "image/" mime = true) ∧
          fileExtension name ≠ "txt" ∧ fileExtension name ≠ "pdf" ∧
          fileExtension name ≠ "docx")) := by
  refine ⟨?_, by decide, ?_⟩
  · intro pre post h
    unfold fileExtension
    congr 1
    have h1 : (String.mk (pre ++ '.' :: post)).toList = pre ++ '.' :: post := rfl
    rw [h1, List.reverse_append, List.reverse_cons]
    rw [List.append_assoc, List.singleton_append]
    rw [takeWhile_append_all _ _ _ (by simpa using h)]
    simp [List.takeWhile_cons]
  · intro name mime h
    refine ⟨dotless_fileExtension name h, ?_⟩
    unfold dispatchFile
    simp only []
    split_ifs with h1 h2 h3 h4 <;>
      simp_all [Bool.or_eq_true]

/-- Claim C10 witness: the dot-less name `readme` with empty MIME type is
its own extension and is rejected as unsupported. -/
theorem dispatchFile_extension_spec_witness :
    ("readme" : String).toList.all (fun c => c ≠ '.') = true ∧
    fileExtension "readme" = String.mk ("readme".toList.map Char.toLower) ∧
    dispatchFile "readme" "" = Dispatch.unsupported (fileExtension "readme") ∧
    ("TXT" : String).toList.all (fun c => c ≠ '.') = true ∧
    fileExtension (String.mk ("notes".toList ++ '.' :: "TXT".toList)) =
      String.mk ("TXT".toList.map Char.toLower) := by
  refine ⟨by decide, (dispatchFile_extension_spec.2.2 "readme" "" (by decide)).1, ?_, by decide, ?_⟩
  · exact ((dispatchFile_extension_spec.2.2 "readme" "" (by decide)).2).mpr (by decide)
  · exact dispatchFile_extension_spec.1 "notes".toList "TXT".toList (by decide)

end GetCheck
